import Mathlib

set_option linter.unusedVariables false

/-!
Verification model of `pixelizer_app.py` (MersadMolaei/Pixelizer).

The Python program is a CLI client for a face-pixelization web service.
We shallow-embed its functions over an explicit environment:
* the HTTP transport is a value describing what one exchange does
  (network-level failure, or a response with status / text / JSON body);
* the local filesystem is an explicit value (directories + file contents);
* Python exceptions escaping a function are modelled by `Except PyExn`.

Each embedded function mirrors the control flow of its Python source,
including the Python semantics of `key in value` and `value[key]` on
arbitrary JSON values (which raise `TypeError` for non-container values),
and the exact `try`/`except` structure of each function.
-/

/-- JSON values as produced by `response.json()`.  Numbers are modelled as
integers (no claim involves fractional values); object field lists play the
role of Python dicts, looked up by first match. -/
inductive Json where
  | null
  | bool (b : Bool)
  | num (n : Int)
  | str (s : String)
  | arr (elems : List Json)
  | obj (fields : List (String × Json))
deriving Repr

/-- Python exceptions that the modelled code can raise or swallow. -/
inductive PyExn where
  | typeError
  | keyError
  | attributeError
  | osError
deriving Repr, DecidableEq

/-- Test that `pat` occurs as a contiguous substring of `s` (Python `pat in s` for
strings), on character lists. -/
def containsSub (s pat : List Char) : Bool :=
  if pat.length = 0 then true
  else (List.range (s.length + 1)).any (fun i => (s.drop i).take pat.length = pat)

/-- Python `==` between a string and a JSON value: true exactly for the
equal string (a JSON number, boolean, list... never equals a `str`). -/
def jsonEqStr (j : Json) (key : String) : Bool :=
  match j with
  | .str s => s = key
  | _ => false

/-- Python `key in value` for a JSON value: key membership for dicts,
element membership for lists, substring test for strings, and `TypeError`
for `null` / booleans / numbers (not iterable). -/
def pyContains (j : Json) (key : String) : Except PyExn Bool :=
  match j with
  | .obj fields => .ok (fields.any (fun kv => kv.1 = key))
  | .arr elems => .ok (elems.any (fun e => jsonEqStr e key))
  | .str s => .ok (containsSub s.toList key.toList)
  | _ => .error .typeError

/-- Python `value[key]` with a string key: dict lookup (`KeyError` when the
key is absent), `TypeError` on every other JSON value (string and list
subscripts must be integers). -/
def pySubscript (j : Json) (key : String) : Except PyExn Json :=
  match j with
  | .obj fields => match List.lookup key fields with
    | some v => .ok v
    | none => .error .keyError
  | _ => .error .typeError

/-- Python truthiness of a JSON value (`if pixelized_image_url:`). -/
def Json.truthy : Json → Bool
  | .null => false
  | .bool b => b
  | .num n => n != 0
  | .str s => s != ""
  | .arr elems => !elems.isEmpty
  | .obj fields => !fields.isEmpty

/-- Model of a `requests.Response`: HTTP status code, raw body text, and
the result of `response.json()` — `none` when the body is not parseable
JSON (in which case `.json()` raises). -/
structure Response where
  status : Nat
  text : String
  jsonBody : Option Json
deriving Repr

/-- Behavior of one HTTP exchange: either a transport-level failure raised
before any response exists (DNS, timeout, connection reset — a
`RequestException` whose `.response` is `None`), or a delivered response. -/
inductive Transport where
  | netFail (detail : String)
  | response (r : Response)
deriving Repr

/-- Model of `response.raise_for_status()`: it raises `HTTPError` exactly for status
codes in the 4xx/5xx range. -/
def isErrorStatus (status : Nat) : Bool :=
  400 ≤ status && status < 600

/-- The text of the `HTTPError` raised by `raise_for_status` (environment
model of `str(e)`: it mentions the raw status and response text). -/
def httpErrorDetail (r : Response) : String :=
  toString r.status ++ " Error: " ++ r.text

/-- The text of the `JSONDecodeError` raised by `response.json()` on a
non-JSON body (a `RequestException` in the `requests` library, with no
response attached). -/
def jsonDecodeDetail (r : Response) : String :=
  "Invalid JSON: " ++ r.text

/-- The inner `try`/`except` of both `RequestException` handlers:
best-effort extraction of the `message` field from `e.response.json()`.
Every exception along the way — `e.response` being `None`
(`AttributeError`), `.json()` raising on a non-JSON body, `TypeError`
from `in`/subscript on non-dict JSON — is swallowed by the bare
`except: pass`, yielding no message. -/
def extractApiMessage (resp : Option Response) : Option Json :=
  match resp with
  | none => none
  | some r =>
    match r.jsonBody with
    | none => none
    | some j =>
      match pyContains j "message" with
      | .error _ => none
      | .ok false => none
      | .ok true =>
        match pySubscript j "message" with
        | .error _ => none
        | .ok v => some v

/-- Outcome of a pixelize call: one constructor per exit path of the
source functions.  The Python functions return the result value on the
success path and `None` on every failure path; the failure constructors
record which path was taken and the diagnostic data printed there. -/
inductive PixelizeOutcome where
  | success (result : Json)
  | malformedResponse (payload : Json)
  | requestError (detail : String) (apiMessage : Option Json)
  | fileNotFound (path : String)
  | unexpectedError
deriving Repr

/-- Shallow embedding of `pixelize_image_from_url`.  The function catches
only `requests.exceptions.RequestException`; any other exception (for
instance the `TypeError` raised by `"result" in result` when the JSON body
is not a container) escapes as `.error`. -/
def pixelize_image_from_url (api_key image_url : String) (transport : Transport) :
    Except PyExn PixelizeOutcome :=
  match transport with
  | .netFail detail => .ok (.requestError detail (extractApiMessage none))
  | .response r =>
    if isErrorStatus r.status then
      .ok (.requestError (httpErrorDetail r) (extractApiMessage (some r)))
    else
      match r.jsonBody with
      | none => .ok (.requestError (jsonDecodeDetail r) (extractApiMessage none))
      | some j =>
        match pyContains j "result" with
        | .error e => .error e
        | .ok true =>
          match pySubscript j "result" with
          | .error e => .error e
          | .ok v => .ok (.success v)
        | .ok false => .ok (.malformedResponse j)

/-- What `open(file_path, 'rb')` finds at a path. -/
inductive OpenResult where
  | notFound
  | isDir
  | content (bytes : List Nat)
deriving Repr

/-- Result of one run of `pixelize_uploaded_image`: its outcome together
with the number of HTTP requests it issued (the `requests.post` sits
inside the `with open(...)` block, so a failed `open` issues none). -/
structure UploadRun where
  outcome : PixelizeOutcome
  networkCalls : Nat
deriving Repr

/-- Shallow embedding of `pixelize_uploaded_image`.  `openResult` is what
opening `file_path` in binary mode yields.  Unlike the by-URL variant this
function ends with a catch-all `except Exception`, so no exception
escapes: a `TypeError` from `in`/subscript on non-dict JSON, or an
`IsADirectoryError` from `open`, lands in the `unexpectedError` path. -/
def pixelize_uploaded_image (api_key file_path : String) (openResult : OpenResult)
    (transport : Transport) : UploadRun :=
  match openResult with
  | .notFound => ⟨.fileNotFound file_path, 0⟩
  | .isDir => ⟨.unexpectedError, 0⟩
  | .content _ =>
    match transport with
    | .netFail detail => ⟨.requestError detail (extractApiMessage none), 1⟩
    | .response r =>
      if isErrorStatus r.status then
        ⟨.requestError (httpErrorDetail r) (extractApiMessage (some r)), 1⟩
      else
        match r.jsonBody with
        | none => ⟨.requestError (jsonDecodeDetail r) (extractApiMessage none), 1⟩
        | some j =>
          match pyContains j "result" with
          | .error _ => ⟨.unexpectedError, 1⟩
          | .ok true =>
            match pySubscript j "result" with
            | .error _ => ⟨.unexpectedError, 1⟩
            | .ok v => ⟨.success v, 1⟩
          | .ok false => ⟨.malformedResponse j, 1⟩

/-- Local filesystem model: the set of existing directories and a map from
file paths to byte contents (newest entry first, looked up by first
match).  Paths are plain strings, as in the source. -/
structure FS where
  dirs : List String
  files : List (String × List Nat)
deriving Repr

/-- Model of `os.path.exists`: true when the path is an existing directory or an
existing file. -/
def FS.pathExists (fs : FS) (p : String) : Bool :=
  fs.dirs.contains p || (List.lookup p fs.files).isSome

/-- What `open(p, 'rb')` yields on this filesystem. -/
def FS.openRead (fs : FS) (p : String) : OpenResult :=
  match List.lookup p fs.files with
  | some bytes => .content bytes
  | none => if fs.dirs.contains p then .isDir else .notFound

/-- Model of `os.path.dirname` on character lists (posixpath semantics):
everything up to the last `/`, with trailing slashes stripped unless the
result is all slashes. -/
def dirnameChars (cs : List Char) : List Char :=
  let head := (cs.reverse.dropWhile (fun c => c != '/')).reverse
  if head.all (fun c => c = '/') then head
  else (head.reverse.dropWhile (fun c => c = '/')).reverse

/-- Model of `os.path.dirname` on strings. -/
def dirname (p : String) : String :=
  String.mk (dirnameChars p.toList)

/-- The chain of directories `os.makedirs dir` walks, shallowest first:
`dir` preceded by its proper ancestors, stopping when `dirname` yields the
empty string or no longer changes.  `fuel` bounds the recursion; callers
pass the length of `dir`, which suffices since `dirname` strictly shortens
any path it changes. -/
def ancestorChain : Nat → String → List String
  | 0, dir => [dir]
  | fuel + 1, dir =>
    let d := dirname dir
    if d = "" || d = dir then [dir] else ancestorChain fuel d ++ [dir]

/-- The directories `os.makedirs dir` creates (with their ancestors). -/
def makedirsChain (dir : String) : List String :=
  ancestorChain dir.length dir

/-- Model of `os.makedirs dir`: creates the directory and every missing ancestor;
raises an `OSError` when some member of the chain already exists as a
regular file. -/
def makedirs (fs : FS) (dir : String) : Except PyExn FS :=
  if (makedirsChain dir).any (fun d => (List.lookup d fs.files).isSome) then
    .error .osError
  else
    .ok { fs with dirs := fs.dirs ++ makedirsChain dir }

/-- Auxiliary for `iter_content`: structural recursion on a fuel bound on
the body length (each step consumes at least one byte, so the fuel never
runs out when it starts at the body length). -/
def iterContentAux (n : Nat) : Nat → List Nat → List (List Nat)
  | _, [] => []
  | 0, body => [body]
  | fuel + 1, b :: rest =>
    (b :: rest.take (n - 1)) :: iterContentAux n fuel (rest.drop (n - 1))

/-- Model of `response.iter_content(chunk_size = n)`: the body split into
successive chunks of at most `n` bytes (`n = 8192` at the call site). -/
def iter_content (n : Nat) (body : List Nat) : List (List Nat) :=
  iterContentAux n body.length body

/-- Model of `open(p, 'wb')` followed by writing the chunks in order: fails when
`p` is an existing directory or its parent directory is missing, otherwise
records the concatenation of the chunks as the new contents of `p`. -/
def writeFileChunks (fs : FS) (p : String) (chunks : List (List Nat)) :
    Except PyExn FS :=
  if fs.dirs.contains p then .error .osError
  else if dirname p != "" && !fs.dirs.contains (dirname p) then .error .osError
  else .ok { fs with files := (p, chunks.foldl (fun acc c => acc ++ c) []) :: fs.files }

/-- Result of one run of `download_image`: the boolean the Python function
returns, and the filesystem afterwards. -/
structure DownloadRun where
  success : Bool
  fs : FS
deriving Repr

/-- Behavior of the artifact `GET`: transport failure or a response whose
body is raw bytes. -/
inductive FetchResult where
  | netFail (detail : String)
  | response (status : Nat) (body : List Nat)
deriving Repr

/-- Shallow embedding of `download_image`.  `raise_for_status` runs before
anything touches the filesystem; the parent directory is created (with its
missing ancestors) only when it is non-empty and does not exist; the body
is then streamed to `output_path` in 8192-byte chunks.  Both `except`
clauses return `False`, leaving whatever filesystem state was reached. -/
def download_image (image_url output_path : String) (fetch : FetchResult)
    (fs : FS) : DownloadRun :=
  match fetch with
  | .netFail _ => ⟨false, fs⟩
  | .response status body =>
    if isErrorStatus status then ⟨false, fs⟩
    else
      let dir := dirname output_path
      let afterDirs : Except PyExn FS :=
        if dir != "" && !fs.pathExists dir then makedirs fs dir else .ok fs
      match afterDirs with
      | .error _ => ⟨false, fs⟩
      | .ok fs1 =>
        match writeFileChunks fs1 output_path (iter_content 8192 body) with
        | .error _ => ⟨false, fs1⟩
        | .ok fs2 => ⟨true, fs2⟩

/-- Characters allowed after the first letter of a URL scheme. -/
def isSchemeChar (c : Char) : Bool :=
  c.isAlphanum || c = '+' || c = '-' || c = '.'

/-- The prefix of `cs` before the first occurrence of `stop`. -/
def takeUntilChar (cs : List Char) (stop : Char) : List Char :=
  cs.takeWhile (fun c => c != stop)

/-- Scheme splitting of `urllib.parse.urlsplit`: when a `:` is present and
everything before it is a letter followed by scheme characters, drop the
scheme and the colon; otherwise leave the input unchanged. -/
def stripScheme (cs : List Char) : List Char :=
  let pre := takeUntilChar cs ':'
  if pre.length < cs.length then
    match pre with
    | [] => cs
    | c :: rest =>
      if c.isAlpha && rest.all isSchemeChar then cs.drop (pre.length + 1) else cs
  else cs

/-- Netloc splitting of `urlsplit`: when the input starts with `//`, the
netloc runs up to the next `/`, `?` or `#`; a netloc with an unmatched `[`
or `]` raises `ValueError` (modelled as `none`). -/
def splitNetloc (cs : List Char) : Option (List Char) :=
  match cs with
  | '/' :: '/' :: rest =>
    let netloc := rest.takeWhile (fun c => c != '/' && c != '?' && c != '#')
    if (netloc.contains '[' && !netloc.contains ']') ||
       (netloc.contains ']' && !netloc.contains '[') then none
    else some (rest.drop netloc.length)
  | _ => some cs

/-- Parameter splitting of `urllib.parse.urlparse`: drop a `;`-suffix of
the last path segment (of the whole path when it has no `/`). -/
def splitParams (cs : List Char) : List Char :=
  if cs.contains '/' then
    let lastSeg := (cs.reverse.takeWhile (fun c => c != '/')).reverse
    cs.take (cs.length - lastSeg.length) ++ takeUntilChar lastSeg ';'
  else takeUntilChar cs ';'

/-- The `.path` component of `urllib.parse.urlparse(url)`: strip the
fragment, the scheme, the netloc, the query and the params; `none` models
the `ValueError` urlparse raises on an invalid bracketed host. -/
def urlparsePath (url : String) : Option String :=
  let cs := takeUntilChar url.toList '#'
  let cs := stripScheme cs
  match splitNetloc cs with
  | none => none
  | some rest => some (String.mk (splitParams (takeUntilChar rest '?')))

/-- Model of `os.path.basename`: everything after the last `/`. -/
def basename (p : String) : String :=
  String.mk ((p.toList.reverse.takeWhile (fun c => c != '/')).reverse)

/-- The default filename used when none can be derived from the URL. -/
def defaultOutputName : String := "pixelized_image.jpg"

/-- The output-path derivation of `__main__` when no `--output` is given:
take the basename of the parsed URL's path; when it is empty or has no
`.`, or when parsing raised, fall back to the fixed default name.  The
whole derivation sits in a `try` with a bare `except` falling back to the
default, so it never raises. -/
def deriveOutputPath (resultUrl : String) : String :=
  match urlparsePath resultUrl with
  | none => defaultOutputName
  | some p =>
    let filename := basename p
    if filename = "" || !filename.toList.contains '.' then defaultOutputName
    else filename

/-- Command-line arguments after `argparse` (each a string option). -/
structure Args where
  apiKey : Option String
  url : Option String
  file : Option String
  output : Option String

/-- Python truthiness of an optional string (`if not api_key:` treats both
`None` and the empty string as missing). -/
def optTruthy : Option String → Bool
  | none => false
  | some s => s != ""

/-- Python truthiness of an optional JSON value
(`if pixelized_image_url:`). -/
def pyOptTruthy : Option Json → Bool
  | none => false
  | some v => v.truthy

/-- The Python return value of a pixelize call: the result on success,
`None` on every failure path. -/
def retValue : PixelizeOutcome → Option Json
  | .success v => some v
  | _ => none

/-- The key `__main__` ends up with: the `--api-key` argument when truthy,
otherwise whatever `get_api_key_from_file` produced. -/
def resolvedKey (args : Args) (fileApiKey : Option String) : Option String :=
  if optTruthy args.apiKey then args.apiKey else fileApiKey

/-- The output path `__main__` downloads to: the `--output` argument when
truthy, otherwise the derivation from the result URL — whose `try` block
falls back to the default name when the result value is not a string
(`urlparse` then raises, caught by the bare `except`). -/
def chosenOutputPath (args : Args) (v : Json) : String :=
  if optTruthy args.output then args.output.getD ""
  else match v with
    | .str s => deriveOutputPath s
    | _ => defaultOutputName

/-- The URL value handed to `download_image` (the `requests` layer
stringifies non-string values; only string results matter here). -/
def urlStringOf (v : Json) : String :=
  match v with
  | .str s => s
  | _ => ""

def msgNoApiKey : String := "Error: No API key provided"
def msgFileMissing : String := "Error: The specified file path does not exist"
def msgPixelizeFailed : String := "Failed to pixelize image."
def msgDownloadFailed : String := "Image processing complete, but download failed."
def msgAllComplete : String := "Image processing and download complete."

/-- Result of one run of `__main__` past argument parsing: the process
exit status, the report messages printed on the way out, and the final
filesystem. -/
structure MainResult where
  exitCode : Nat
  messages : List String
  fs : FS
deriving Repr

/-- The tail of `__main__` after the pixelize step, given the Python value
of `pixelized_image_url`: on a truthy result, derive the output path and
download, exiting 0 only when the download returns `True`; otherwise
report the pixelization failure and exit 1. -/
def mainAfterPixelize (args : Args) (purl : Option Json) (df : FetchResult)
    (fs : FS) : MainResult :=
  if pyOptTruthy purl then
    let v := purl.getD .null
    let dl := download_image (urlStringOf v) (chosenOutputPath args v) df fs
    if dl.success then ⟨0, [msgAllComplete], dl.fs⟩
    else ⟨1, [msgDownloadFailed], dl.fs⟩
  else ⟨1, [msgPixelizeFailed], fs⟩

/-- Shallow embedding of `__main__` past argument parsing.  `fileApiKey`
is what `get_api_key_from_file` yields when consulted, `pt` the behavior
of the pixelize endpoint call, `df` that of the artifact fetch.  A missing
key exits 1 before any call; file mode checks `os.path.exists` and exits 1
before any call when the file is missing; an exception escaping
`pixelize_image_from_url` crashes the process (`.error`). -/
def runMain (args : Args) (fileApiKey : Option String) (pt : Transport)
    (df : FetchResult) (fs : FS) : Except PyExn MainResult :=
  let apiKey := resolvedKey args fileApiKey
  if !optTruthy apiKey then .ok ⟨1, [msgNoApiKey], fs⟩
  else
    let key := apiKey.getD ""
    if optTruthy args.url then
      match pixelize_image_from_url key (args.url.getD "") pt with
      | .error e => .error e
      | .ok outcome => .ok (mainAfterPixelize args (retValue outcome) df fs)
    else if optTruthy args.file then
      let path := args.file.getD ""
      if fs.pathExists path then
        let run := pixelize_uploaded_image key path (fs.openRead path) pt
        .ok (mainAfterPixelize args (retValue run.outcome) df fs)
      else .ok ⟨1, [msgFileMissing], fs⟩
    else
      .ok (mainAfterPixelize args none df fs)

/-! ## Helper lemmas -/

theorem lookup_imp_any (key : String) (fields : List (String × Json)) (v : Json)
    (h : List.lookup key fields = some v) :
    fields.any (fun kv => kv.1 = key) = true := by
  induction fields with
  | nil => simp [List.lookup] at h
  | cons kv rest ih =>
    obtain ⟨k, w⟩ := kv
    by_cases hk : k = key
    · simp [hk]
    · simp only [List.lookup, List.any_cons] at h ⊢
      have hbeq : (key == k) = false := by
        simp [BEq.beq]
        exact fun he => hk he.symm
      rw [hbeq] at h
      simp [hk, ih h]

theorem not_error_status_of_2xx (status : Nat) (h : 200 ≤ status ∧ status < 300) :
    isErrorStatus status = false := by
  simp only [isErrorStatus, Bool.and_eq_false_iff]
  left
  simp only [decide_eq_false_iff_not]
  omega

/-! ## Claims -/

/-- C1: for a 2xx response whose body parses as a JSON object lacking a
field named `result`, both pixelize operations take the
`malformedResponse` exit path — a category distinct from the
`requestError` (ApiError) path — carrying the raw payload as diagnostic
detail. -/
theorem c1_missing_result_is_malformed
    (api_key image_url file_path : String) (bytes : List Nat) (r : Response)
    (fields : List (String × Json))
    (hstatus : 200 ≤ r.status ∧ r.status < 300)
    (hbody : r.jsonBody = some (.obj fields))
    (hnores : ∀ kv ∈ fields, kv.1 ≠ "result") :
    pixelize_image_from_url api_key image_url (.response r)
        = .ok (.malformedResponse (.obj fields))
    ∧ (pixelize_uploaded_image api_key file_path (.content bytes) (.response r)).outcome
        = .malformedResponse (.obj fields)
    ∧ (∀ detail msg, (PixelizeOutcome.malformedResponse (.obj fields))
        ≠ .requestError detail msg) := by
  have herr := not_error_status_of_2xx r.status hstatus
  have hany : fields.any (fun kv => kv.1 = "result") = false := by
    rw [List.any_eq_false]
    intro kv hkv
    simp [hnores kv hkv]
  refine ⟨?_, ?_, ?_⟩
  · simp [pixelize_image_from_url, herr, hbody, pyContains, hany]
  · simp [pixelize_uploaded_image, herr, hbody, pyContains, hany]
  · intro detail msg h
    exact PixelizeOutcome.noConfusion h

/-- C1 witness: a mocked 200 response with body `{}` yields the
malformed-response outcome with the empty payload, for both operations. -/
theorem c1_witness :
    pixelize_image_from_url "k" "http://img.example/a.jpg"
        (.response ⟨200, "{}", some (.obj [])⟩)
        = .ok (.malformedResponse (.obj []))
    ∧ (pixelize_uploaded_image "k" "a.jpg" (.content [1])
        (.response ⟨200, "{}", some (.obj [])⟩)).outcome
        = .malformedResponse (.obj []) := by
  have h := c1_missing_result_is_malformed "k" "http://img.example/a.jpg" "a.jpg" [1]
    ⟨200, "{}", some (.obj [])⟩ [] (by decide) rfl (by simp)
  exact ⟨h.1, h.2.1⟩

/-- C2 (code bug): `pixelize_image_from_url` catches only
`RequestException`, so on a 2xx response whose body is the JSON document
`5` the membership test `"result" in result` raises a `TypeError` that
escapes the function — contradicting both the claimed totality and the
function's own docstring (`None otherwise`). -/
theorem c2_typeerror_escapes_on_nondict_json :
    pixelize_image_from_url "key" "http://img.example/a.jpg"
        (.response ⟨200, "5", some (.num 5)⟩) = .error .typeError := by
  rfl

/-- C3: for a path that does not reference an existing file, `open` finds
nothing, and `pixelize_uploaded_image` takes the `fileNotFound` exit path
with zero HTTP requests issued. -/
theorem c3_missing_file_no_network
    (api_key file_path : String) (transport : Transport) (fs : FS)
    (h : fs.pathExists file_path = false) :
    fs.openRead file_path = .notFound
    ∧ pixelize_uploaded_image api_key file_path (fs.openRead file_path) transport
        = ⟨.fileNotFound file_path, 0⟩ := by
  simp only [FS.pathExists, Bool.or_eq_false_iff] at h
  have hopen : fs.openRead file_path = .notFound := by
    unfold FS.openRead
    cases hl : List.lookup file_path fs.files with
    | some v => rw [hl] at h; simp at h
    | none => simp only [h.1]; rfl
  refine ⟨hopen, ?_⟩
  rw [hopen]
  rfl

/-- C9: on a 2xx response whose JSON object body carries a `result` field,
`pixelize_image_from_url` returns exactly that field's value, untouched. -/
theorem c9_result_field_passed_through
    (api_key image_url : String) (r : Response)
    (fields : List (String × Json)) (v : Json)
    (hstatus : 200 ≤ r.status ∧ r.status < 300)
    (hbody : r.jsonBody = some (.obj fields))
    (hres : List.lookup "result" fields = some v) :
    pixelize_image_from_url api_key image_url (.response r) = .ok (.success v) := by
  have herr := not_error_status_of_2xx r.status hstatus
  have hany := lookup_imp_any "result" fields v hres
  simp [pixelize_image_from_url, herr, hbody, pyContains, hany, pySubscript, hres]

/-- C9 witness: body `{"result": "https://x/y.jpg"}` yields success with
exactly that URL. -/
theorem c9_witness :
    pixelize_image_from_url "k" "http://img.example/a.jpg"
        (.response ⟨200, "", some (.obj [("result", .str "https://x/y.jpg")])⟩)
      = .ok (.success (.str "https://x/y.jpg")) :=
  c9_result_field_passed_through "k" "http://img.example/a.jpg"
    ⟨200, "", some (.obj [("result", .str "https://x/y.jpg")])⟩
    [("result", .str "https://x/y.jpg")] (.str "https://x/y.jpg")
    (by decide) rfl (by rfl)

/-- C4: every 4xx/5xx response sends both pixelize operations down the
`requestError` (ApiError) exit path, whatever the body is — so the
diagnostic extraction never raises; the diagnostic carries the raw
status/text, plus the `message` field exactly when the body is a JSON
object containing one. -/
theorem c4_error_status_api_error
    (api_key image_url file_path : String) (bytes : List Nat) (r : Response)
    (herr : 400 ≤ r.status ∧ r.status < 600) :
    pixelize_image_from_url api_key image_url (.response r)
        = .ok (.requestError (httpErrorDetail r) (extractApiMessage (some r)))
    ∧ (pixelize_uploaded_image api_key file_path (.content bytes) (.response r)).outcome
        = .requestError (httpErrorDetail r) (extractApiMessage (some r))
    ∧ (∀ fields v, r.jsonBody = some (.obj fields) →
        List.lookup "message" fields = some v →
        extractApiMessage (some r) = some v)
    ∧ (r.jsonBody = none → extractApiMessage (some r) = none)
    ∧ (∀ fields, r.jsonBody = some (.obj fields) →
        (∀ kv ∈ fields, kv.1 ≠ "message") →
        extractApiMessage (some r) = none) := by
  have hstat : isErrorStatus r.status = true := by
    simp only [isErrorStatus, Bool.and_eq_true, decide_eq_true_eq]
    omega
  refine ⟨?_, ?_, ?_, ?_, ?_⟩
  · simp [pixelize_image_from_url, hstat]
  · simp [pixelize_uploaded_image, hstat]
  · intro fields v hbody hmsg
    have hany := lookup_imp_any "message" fields v hmsg
    simp [extractApiMessage, hbody, pyContains, hany, pySubscript, hmsg]
  · intro hbody
    simp [extractApiMessage, hbody]
  · intro fields hbody hno
    have hany : fields.any (fun kv => kv.1 = "message") = false := by
      rw [List.any_eq_false]
      intro kv hkv
      simp [hno kv hkv]
    simp [extractApiMessage, hbody, pyContains, hany]

/-- C4 witness: a mocked 403 with body containing a `message` field yields
the ApiError path with detail `invalid key`; a bodyless variant yields no
extracted message. -/
theorem c4_witness :
    pixelize_image_from_url "k" "http://img.example/a.jpg"
        (.response ⟨403, "Forbidden", some (.obj [("message", .str "invalid key")])⟩)
      = .ok (.requestError
          (httpErrorDetail ⟨403, "Forbidden", some (.obj [("message", .str "invalid key")])⟩)
          (some (.str "invalid key")))
    ∧ extractApiMessage (some ⟨500, "oops", none⟩) = none := by
  have h := c4_error_status_api_error "k" "http://img.example/a.jpg" "f.jpg" [1]
    ⟨403, "Forbidden", some (.obj [("message", .str "invalid key")])⟩ (by decide)
  have h2 := c4_error_status_api_error "k" "http://img.example/a.jpg" "f.jpg" [1]
    ⟨500, "oops", none⟩ (by decide)
  refine ⟨?_, h2.2.2.2.1 rfl⟩
  have hm := h.2.2.1 [("message", .str "invalid key")] (.str "invalid key") rfl (by rfl)
  rw [h.1, hm]

/-- Writing the chunks of `iterContentAux` in order reproduces the body,
for every fuel value. -/
theorem iterContentAux_foldl (n : Nat) :
    ∀ (fuel : Nat) (body acc : List Nat),
      (iterContentAux n fuel body).foldl (fun a c => a ++ c) acc = acc ++ body := by
  intro fuel
  induction fuel with
  | zero =>
    intro body acc
    cases body <;> simp [iterContentAux]
  | succ k ih =>
    intro body acc
    cases body with
    | nil => simp [iterContentAux]
    | cons b rest =>
      rw [iterContentAux]
      simp only [List.foldl_cons]
      rw [ih]
      rw [List.append_assoc]
      simp [List.take_append_drop]

/-- Writing the chunks of `iter_content` in order reproduces the body. -/
theorem iter_content_foldl (n : Nat) (body : List Nat) :
    (iter_content n body).foldl (fun a c => a ++ c) [] = body := by
  simpa using iterContentAux_foldl n body.length body []

/-- A directory is a member of its own `makedirs` chain. -/
theorem mem_ancestorChain_self (fuel : Nat) (dir : String) :
    dir ∈ ancestorChain fuel dir := by
  cases fuel with
  | zero => simp [ancestorChain]
  | succ k =>
    rw [ancestorChain]
    by_cases hc : (dirname dir = "" || dirname dir = dir) = true
    · simp [hc]
    · simp only [hc]
      simp

/-- C5: when the artifact fetch succeeds and the target does not collide
with existing directories or files, `download_image` creates the missing
parent directory together with all its ancestors before writing, stores
at `output_path` exactly the response body (the 8192-byte chunks
concatenate back to it, also for multi-chunk bodies), and returns
success. -/
theorem c5_download_creates_dirs_and_roundtrips
    (image_url output_path : String) (status : Nat) (body : List Nat) (fs : FS)
    (hok : isErrorStatus status = false)
    (hnotdir : fs.dirs.contains output_path = false)
    (hdir : dirname output_path = "" ∨
      (fs.pathExists (dirname output_path) = false ∧
       (∀ d ∈ makedirsChain (dirname output_path),
         List.lookup d fs.files = none ∧ d ≠ output_path))) :
    (download_image image_url output_path (.response status body) fs).success = true
    ∧ List.lookup output_path
        (download_image image_url output_path (.response status body) fs).fs.files
        = some body
    ∧ (dirname output_path ≠ "" →
        ∀ d ∈ makedirsChain (dirname output_path),
          (download_image image_url output_path (.response status body) fs).fs.dirs.contains d
            = true) := by
  have hjoin : (iter_content 8192 body).foldl (fun a c => a ++ c) [] = body :=
    iter_content_foldl 8192 body
  have hn : output_path ∉ fs.dirs := by simpa using hnotdir
  rcases hdir with hd | ⟨hnex, hchain⟩
  · simp only [download_image, hok, Bool.false_eq_true, if_false, hd]
    simp only [writeFileChunks, hnotdir, hd]
    simp [hjoin, hn]
  · by_cases hd : dirname output_path = ""
    · simp only [download_image, hok, Bool.false_eq_true, if_false, hd]
      simp only [writeFileChunks, hnotdir, hd]
      simp [hjoin, hn]
    · have hnmem : output_path ∉ makedirsChain (dirname output_path) := by
        intro hmem
        exact (hchain output_path hmem).2 rfl
      have hany : (makedirsChain (dirname output_path)).any
          (fun d => (List.lookup d fs.files).isSome) = false := by
        rw [List.any_eq_false]
        intro d hdmem
        simp [(hchain d hdmem).1]
      have hself : dirname output_path ∈ makedirsChain (dirname output_path) :=
        mem_ancestorChain_self _ _
      simp only [download_image, hok, Bool.false_eq_true, if_false]
      rw [if_pos (by simp [hd, hnex])]
      simp only [makedirs, hany, Bool.false_eq_true, if_false]
      simp only [writeFileChunks]
      rw [if_neg (by simp [hn, hnmem]), if_neg (by simp [hd, List.mem_append, hself])]
      refine ⟨rfl, by simp [hjoin], ?_⟩
      intro _ d hdmem
      simp [List.mem_append, hdmem]

/-- C5 witness: downloading a three-byte body to `a/b/c/out.jpg` on an
empty filesystem creates `a`, `a/b` and `a/b/c` and stores exactly the
body. -/
theorem c5_witness :
    (download_image "http://x/y.jpg" "a/b/c/out.jpg"
        (.response 200 [1, 2, 3]) ⟨[], []⟩).success = true
    ∧ List.lookup "a/b/c/out.jpg"
        (download_image "http://x/y.jpg" "a/b/c/out.jpg"
          (.response 200 [1, 2, 3]) ⟨[], []⟩).fs.files = some [1, 2, 3]
    ∧ (download_image "http://x/y.jpg" "a/b/c/out.jpg"
        (.response 200 [1, 2, 3]) ⟨[], []⟩).fs.dirs.contains "a/b" = true := by
  have h := c5_download_creates_dirs_and_roundtrips "http://x/y.jpg" "a/b/c/out.jpg"
    200 [1, 2, 3] ⟨[], []⟩ (by decide) (by decide)
    (Or.inr ⟨by decide, by decide⟩)
  exact ⟨h.1, h.2.1, h.2.2 (by decide) "a/b" (by decide)⟩

/-- C7: a 4xx/5xx response from the artifact fetch makes `download_image`
return failure with the filesystem untouched: in particular no file is
created or modified at the output path. -/
theorem c7_download_error_status_writes_nothing
    (image_url output_path : String) (status : Nat) (body : List Nat) (fs : FS)
    (herr : 400 ≤ status ∧ status < 600) :
    download_image image_url output_path (.response status body) fs
      = ⟨false, fs⟩ := by
  have hstat : isErrorStatus status = true := by
    simp only [isErrorStatus, Bool.and_eq_true, decide_eq_true_eq]
    omega
  simp [download_image, hstat]

/-- C7 witness: a 404 on a filesystem already holding a file leaves the
run failed and the filesystem equal to what it was. -/
theorem c7_witness :
    download_image "http://x/y.jpg" "out/a.jpg" (.response 404 [9, 9])
        ⟨["out"], [("keep.bin", [7])]⟩
      = ⟨false, ⟨["out"], [("keep.bin", [7])]⟩⟩ :=
  c7_download_error_status_writes_nothing "http://x/y.jpg" "out/a.jpg" 404 [9, 9]
    ⟨["out"], [("keep.bin", [7])]⟩ (by decide)

/-- C10: when the artifact fetch fails — transport failure or error
status — the run fails and the filesystem is returned entirely unchanged:
the status check precedes directory creation, so not even parent
directories are created. -/
theorem c10_failed_fetch_leaves_fs_unchanged
    (image_url output_path : String) (fs : FS) :
    (∀ detail, download_image image_url output_path (.netFail detail) fs
        = ⟨false, fs⟩)
    ∧ (∀ status body, isErrorStatus status = true →
        download_image image_url output_path (.response status body) fs
          = ⟨false, fs⟩) := by
  constructor
  · intro detail
    rfl
  · intro status body h
    simp [download_image, h]

/-- C10 witness: a timeout and a 500 both leave an example filesystem
(with no `out` directory yet) exactly as it was. -/
theorem c10_witness :
    download_image "http://x/y.jpg" "out/a.jpg" (.netFail "timeout") ⟨[], []⟩
      = ⟨false, ⟨[], []⟩⟩
    ∧ download_image "http://x/y.jpg" "out/a.jpg" (.response 500 [1])
        ⟨[], [("f.bin", [0])]⟩ = ⟨false, ⟨[], [("f.bin", [0])]⟩⟩ :=
  ⟨(c10_failed_fetch_leaves_fs_unchanged "http://x/y.jpg" "out/a.jpg" ⟨[], []⟩).1 "timeout",
   (c10_failed_fetch_leaves_fs_unchanged "http://x/y.jpg" "out/a.jpg"
     ⟨[], [("f.bin", [0])]⟩).2 500 [1] (by decide)⟩

/-- C6: the output-path derivation is a total function of the result URL
(`deriveOutputPath` is a plain function, hence deterministic and
non-raising): a parse failure yields the fixed default, and otherwise the
final path segment is used exactly when it is non-empty and contains a
`.`, with the fixed default in every other case. -/
theorem c6_output_path_derivation (url : String) :
    (urlparsePath url = none → deriveOutputPath url = defaultOutputName)
    ∧ (∀ p, urlparsePath url = some p →
        deriveOutputPath url =
          if basename p ≠ "" ∧ (basename p).toList.contains '.' = true
          then basename p else defaultOutputName) := by
  constructor
  · intro h
    simp [deriveOutputPath, h]
  · intro p h
    simp only [deriveOutputPath, h]
    by_cases h1 : basename p = ""
    · simp [h1]
    · by_cases h2 : (basename p).toList.contains '.' = true
      · simp [h1, h2]
      · simp [h1, h2]

/-- C6 witness: `https://host/path/face_42.jpg` derives `face_42.jpg`; the
trailing-slash URL `https://host/path/` (empty final segment) derives the
default name. -/
theorem c6_witness :
    deriveOutputPath "https://host/path/face_42.jpg" = "face_42.jpg"
    ∧ deriveOutputPath "https://host/path/" = defaultOutputName := by
  constructor
  · have h := (c6_output_path_derivation "https://host/path/face_42.jpg").2
      "/path/face_42.jpg" (by decide)
    rw [h]
    decide
  · have h := (c6_output_path_derivation "https://host/path/").2 "/path/" (by decide)
    rw [h]
    decide

/-- C8: the process exit status is zero exactly on full success and
nonzero on every failure category — missing credential, missing input
file, a pixelize call that yields no usable result (API error or
malformed response), and a failed download — and the report distinguishes
a pixelization failure (`msgPixelizeFailed`) from a post-pixelization
download failure (`msgDownloadFailed`), in both input modes. -/
theorem c8_exit_status_and_reporting
    (args : Args) (fileApiKey : Option String) (pt : Transport)
    (df : FetchResult) (fs : FS) :
    (optTruthy (resolvedKey args fileApiKey) = false →
      runMain args fileApiKey pt df fs = .ok ⟨1, [msgNoApiKey], fs⟩)
    ∧ (optTruthy (resolvedKey args fileApiKey) = true →
      optTruthy args.url = false → optTruthy args.file = true →
      fs.pathExists (args.file.getD "") = false →
      runMain args fileApiKey pt df fs = .ok ⟨1, [msgFileMissing], fs⟩)
    ∧ (∀ outcome, optTruthy (resolvedKey args fileApiKey) = true →
      optTruthy args.url = true →
      pixelize_image_from_url ((resolvedKey args fileApiKey).getD "")
          (args.url.getD "") pt = .ok outcome →
      pyOptTruthy (retValue outcome) = false →
      runMain args fileApiKey pt df fs = .ok ⟨1, [msgPixelizeFailed], fs⟩)
    ∧ (∀ v, optTruthy (resolvedKey args fileApiKey) = true →
      optTruthy args.url = true →
      pixelize_image_from_url ((resolvedKey args fileApiKey).getD "")
          (args.url.getD "") pt = .ok (.success v) →
      v.truthy = true →
      runMain args fileApiKey pt df fs =
        .ok ⟨if (download_image (urlStringOf v) (chosenOutputPath args v) df fs).success
               then 0 else 1,
             [if (download_image (urlStringOf v) (chosenOutputPath args v) df fs).success
               then msgAllComplete else msgDownloadFailed],
             (download_image (urlStringOf v) (chosenOutputPath args v) df fs).fs⟩)
    ∧ (optTruthy (resolvedKey args fileApiKey) = true →
      optTruthy args.url = false → optTruthy args.file = true →
      fs.pathExists (args.file.getD "") = true →
      pyOptTruthy (retValue (pixelize_uploaded_image
          ((resolvedKey args fileApiKey).getD "") (args.file.getD "")
          (fs.openRead (args.file.getD "")) pt).outcome) = false →
      runMain args fileApiKey pt df fs = .ok ⟨1, [msgPixelizeFailed], fs⟩)
    ∧ (∀ v, optTruthy (resolvedKey args fileApiKey) = true →
      optTruthy args.url = false → optTruthy args.file = true →
      fs.pathExists (args.file.getD "") = true →
      (pixelize_uploaded_image ((resolvedKey args fileApiKey).getD "")
          (args.file.getD "") (fs.openRead (args.file.getD "")) pt).outcome
        = .success v →
      v.truthy = true →
      runMain args fileApiKey pt df fs =
        .ok ⟨if (download_image (urlStringOf v) (chosenOutputPath args v) df fs).success
               then 0 else 1,
             [if (download_image (urlStringOf v) (chosenOutputPath args v) df fs).success
               then msgAllComplete else msgDownloadFailed],
             (download_image (urlStringOf v) (chosenOutputPath args v) df fs).fs⟩)
    ∧ msgPixelizeFailed ≠ msgDownloadFailed
    ∧ msgPixelizeFailed ≠ msgAllComplete := by
  refine ⟨?_, ?_, ?_, ?_, ?_, ?_, by decide, by decide⟩
  · intro hkey
    simp [runMain, hkey]
  · intro hkey hurl hfile hex
    simp [runMain, hkey, hurl, hfile, hex]
  · intro outcome hkey hurl hpix htr
    simp only [runMain, hkey, Bool.not_true, Bool.false_eq_true, if_false, hurl, if_true, hpix]
    simp [mainAfterPixelize, htr]
  · intro v hkey hurl hpix htr
    simp only [runMain, hkey, Bool.not_true, Bool.false_eq_true, if_false, hurl, if_true, hpix]
    simp only [mainAfterPixelize, retValue, pyOptTruthy, htr, if_true, Option.getD_some]
    by_cases hdl : (download_image (urlStringOf v) (chosenOutputPath args v) df fs).success = true
    · simp [hdl]
    · simp only [Bool.not_eq_true] at hdl
      simp [hdl]
  · intro hkey hurl hfile hex htr
    simp only [runMain, hkey, Bool.not_true, Bool.false_eq_true, if_false, hurl, hfile,
      if_true, hex]
    simp [mainAfterPixelize, htr]
  · intro v hkey hurl hfile hex hpix htr
    simp only [runMain, hkey, Bool.not_true, Bool.false_eq_true, if_false, hurl, hfile,
      if_true, hex, hpix]
    simp only [mainAfterPixelize, retValue, pyOptTruthy, htr, if_true, Option.getD_some]
    by_cases hdl : (download_image (urlStringOf v) (chosenOutputPath args v) df fs).success = true
    · simp [hdl]
    · simp only [Bool.not_eq_true] at hdl
      simp [hdl]

/-- C8 witness: a fully successful run exits 0 with the completion message; the
same run against a 403 pixelize response exits 1 with the distinct
pixelization-failure message. -/
theorem c8_witness :
    runMain ⟨some "k", some "http://a/face.jpg", none, some "out.jpg"⟩ none
        (.response ⟨200, "", some (.obj [("result", .str "http://a/face.jpg")])⟩)
        (.response 200 [1, 2]) ⟨[], []⟩
      = .ok ⟨0, [msgAllComplete], ⟨[], [("out.jpg", [1, 2])]⟩⟩
    ∧ runMain ⟨some "k", some "http://a/face.jpg", none, some "out.jpg"⟩ none
        (.response ⟨403, "f", some (.obj [])⟩) (.response 200 [1, 2]) ⟨[], []⟩
      = .ok ⟨1, [msgPixelizeFailed], ⟨[], []⟩⟩ := by
  constructor
  · have h := (c8_exit_status_and_reporting
      ⟨some "k", some "http://a/face.jpg", none, some "out.jpg"⟩ none
      (.response ⟨200, "", some (.obj [("result", .str "http://a/face.jpg")])⟩)
      (.response 200 [1, 2]) ⟨[], []⟩).2.2.2.1 (.str "http://a/face.jpg")
      rfl rfl rfl rfl
    rw [h]
    rfl
  · exact (c8_exit_status_and_reporting
      ⟨some "k", some "http://a/face.jpg", none, some "out.jpg"⟩ none
      (.response ⟨403, "f", some (.obj [])⟩) (.response 200 [1, 2]) ⟨[], []⟩).2.2.1
      (.requestError (httpErrorDetail ⟨403, "f", some (.obj [])⟩)
        (extractApiMessage (some ⟨403, "f", some (.obj [])⟩)))
      rfl rfl rfl rfl

/-- C3 witness: on an empty filesystem no file exists, so the upload run
reports file-not-found having issued zero HTTP requests. -/
theorem c3_witness :
    FS.openRead ⟨[], []⟩ "missing.jpg" = .notFound
    ∧ pixelize_uploaded_image "k" "missing.jpg"
        (FS.openRead ⟨[], []⟩ "missing.jpg") (.netFail "unused")
      = ⟨.fileNotFound "missing.jpg", 0⟩ :=
  c3_missing_file_no_network "k" "missing.jpg" (.netFail "unused") ⟨[], []⟩ (by decide)
